import Mathlib

/-!
Verification of the Luma Python binding layer
(src/Luma/include/bindings/python/luma.py) against its specification.

The only code of the repository is the binding (status constants, the
status checker, the mock fallbacks, and the `Tensor`/`Model` wrappers);
the native engine `libluma` that the binding calls is not in the source.
Definitions taken from the binding are shallow embeddings of the Python
code; definitions for engine operations carry a doc comment starting
`Modelled from the spec:` and follow the specification's contracts.
-/

namespace Luma

/-- Carrier for 32-bit float values.  No property under verification
performs floating-point arithmetic (tensor data is only stored, copied
and compared for bit-identity, and the only concrete payloads are small
integers and zero fills), so f32 values are carried opaquely by a type
with decidable equality. -/
abbrev F32 := Int

/-! ### Status codes of the binding (luma.py lines 45-50) -/

/-- `LUMA_STATUS_SUCCESS = 0` (luma.py line 46). -/
def LUMA_STATUS_SUCCESS : Int := 0

/-- `LUMA_STATUS_ERROR_INVALID_ARGUMENT = 1` (luma.py line 47). -/
def LUMA_STATUS_ERROR_INVALID_ARGUMENT : Int := 1

/-- `LUMA_STATUS_ERROR_RUNTIME = 2` (luma.py line 48). -/
def LUMA_STATUS_ERROR_RUNTIME : Int := 2

/-- `LUMA_STATUS_ERROR_NOT_IMPLEMENTED = 3` (luma.py line 49). -/
def LUMA_STATUS_ERROR_NOT_IMPLEMENTED : Int := 3

/-- `LUMA_STATUS_ERROR_MEMORY = 4` (luma.py line 50). -/
def LUMA_STATUS_ERROR_MEMORY : Int := 4

/-- The status enumeration the binding defines: every `LUMA_STATUS_*`
constant of luma.py (lines 45-50), paired with its taxonomy name. -/
def lumaStatusCodes : List (String × Int) :=
  [("Success", LUMA_STATUS_SUCCESS),
   ("InvalidArgument", LUMA_STATUS_ERROR_INVALID_ARGUMENT),
   ("Runtime", LUMA_STATUS_ERROR_RUNTIME),
   ("NotImplemented", LUMA_STATUS_ERROR_NOT_IMPLEMENTED),
   ("Memory", LUMA_STATUS_ERROR_MEMORY)]

/-! ### The status checker (luma.py lines 56-64) -/

/-- The fallback text of `_check_status` (luma.py line 63), Python's
f-string `Unknown error (code: <status>)` with the status interpolated. -/
def unknownErrorMessage (status : Int) : String :=
  "Unknown error (code: " ++ toString status ++ ")"

/-- Shallow embedding of `_check_status` (luma.py lines 56-64).
`lastError` is what `luma_get_last_error` would return at the moment of
the call: `none` for a NULL `c_char_p` and `some s` for a C string `s`;
both NULL and the empty string are falsy under Python's `if error_msg:`,
which selects the fallback text.  A raised `LumaError` is the `error`
branch carrying the exception's message. -/
def check_status (status : Int) (lastError : Option String) : Except String Unit :=
  if status ≠ LUMA_STATUS_SUCCESS then
    Except.error
      (match lastError with
       | some msg => if msg ≠ "" then msg else unknownErrorMessage status
       | none => unknownErrorMessage status)
  else
    Except.ok ()

/-! ### The engine boundary, modelled from the spec

`libluma` is absent from the source; these definitions follow spec.md
sections 3, 4.1, 4.3 and 4.4. -/

/-- Modelled from the spec: the status taxonomy of the engine boundary
(spec section 7), which is not in the source.  `success` is the
non-error status; the others are the taxonomy's error names. -/
inductive EngineStatus where
  | success
  | invalidArgument
  | invalidHandle
  | notInitialized
  | alreadyExists
  | busy
  | ioError
  | formatError
  | shapeMismatch
  | unsupportedFormat
  | memory
  | runtime
  deriving DecidableEq, Repr

/-- Modelled from the spec: a stored tensor (spec section 3), flat f32
data plus shape metadata. -/
structure EngineTensor where
  data : List F32
  shape : List Int
  deriving DecidableEq, Repr

/-- Modelled from the spec: a registered model (spec section 3) — an
identifier, named parameter tensors, and the expected input topology
(the shape an input tensor must have for `predict`). -/
structure EngineModel where
  id : String
  params : List (String × EngineTensor)
  inputShape : List Int
  deriving DecidableEq, Repr

/-- Modelled from the spec: the engine's process state — the Tensor
Store and Model Registry as handle-indexed association lists, the file
system abstracted as a map from paths to already-parsed models, and the
next fresh handle. -/
structure EngineState where
  tensors : List (Nat × EngineTensor)
  models : List (Nat × EngineModel)
  files : List (String × EngineModel)
  nextHandle : Nat
  deriving DecidableEq, Repr

/-- Association-list lookup by handle. -/
def alookup {α : Type} (h : Nat) : List (Nat × α) → Option α
  | [] => none
  | p :: rest => if p.1 = h then some p.2 else alookup h rest

/-- Product of a shape's dimension sizes (the spec's `product(shape)`,
`np.prod` on the Python side); the empty product is 1. -/
def product (shape : List Int) : Int := shape.foldl (fun a d => a * d) 1

/-- Handle-space well-formedness: every registered handle is below the
next fresh one, so a fresh handle never collides with a live one (spec
section 3: a handle is never reused while outstanding). -/
def EngineState.WF (st : EngineState) : Prop :=
  (∀ p ∈ st.tensors, p.1 < st.nextHandle) ∧ (∀ p ∈ st.models, p.1 < st.nextHandle)

instance (st : EngineState) : Decidable st.WF := by
  unfold EngineState.WF; infer_instance

/-- Modelled from the spec: Tensor Store `create` behind
`luma_tensor_create` (spec section 4.1), which is not in the source.
Fails with `InvalidArgument` if `len(data) != product(shape)` or any
shape dimension is negative; otherwise registers a copy of the data
under a fresh handle.  The result is (status, out-handle, post-state),
mirroring the C ABI's status return plus out parameter. -/
def luma_tensor_create (st : EngineState) (data : List F32) (shape : List Int) :
    EngineStatus × Option Nat × EngineState :=
  if Int.ofNat data.length ≠ product shape ∨ ∃ d ∈ shape, d < 0 then
    (EngineStatus.invalidArgument, none, st)
  else
    (EngineStatus.success, some st.nextHandle,
     { st with
        tensors := (st.nextHandle, EngineTensor.mk data shape) :: st.tensors,
        nextHandle := st.nextHandle + 1 })

/-- Modelled from the spec: Tensor Store `read` (spec section 4.1),
which is not in the source.  Returns a copy of the stored data, or
`InvalidHandle` for an unknown handle; the store is not changed. -/
def luma_tensor_read (st : EngineState) (h : Nat) : EngineStatus × Option (List F32) :=
  match alookup h st.tensors with
  | some t => (EngineStatus.success, some t.data)
  | none => (EngineStatus.invalidHandle, none)

/-- Modelled from the spec: Tensor Store `shape` (spec section 4.1),
which is not in the source.  Returns the stored shape, or
`InvalidHandle` for an unknown handle; the store is not changed. -/
def luma_tensor_shape (st : EngineState) (h : Nat) : EngineStatus × Option (List Int) :=
  match alookup h st.tensors with
  | some t => (EngineStatus.success, some t.shape)
  | none => (EngineStatus.invalidHandle, none)

/-- Modelled from the spec: Model Registry `create` behind
`luma_model_create` (spec section 4.3), which is not in the source.
An empty id fails with `InvalidArgument`; an already-registered id
fails with `AlreadyExists`; otherwise a fresh handle is bound to an
empty, untrained model.  The spec leaves a new model's expected input
topology unconstrained; here it starts empty. -/
def luma_model_create (st : EngineState) (id : String) :
    EngineStatus × Option Nat × EngineState :=
  if id = "" then (EngineStatus.invalidArgument, none, st)
  else if st.models.any (fun p => p.2.id == id) then
    (EngineStatus.alreadyExists, none, st)
  else
    (EngineStatus.success, some st.nextHandle,
     { st with
        models := (st.nextHandle, EngineModel.mk id [] []) :: st.models,
        nextHandle := st.nextHandle + 1 })

/-- Modelled from the spec: Model Registry `load` behind
`luma_model_load` (spec section 4.3), which is not in the source.  The
file system is abstracted as the state's `files` map holding
already-parsed models, so an unreadable path fails with `IOError`;
structurally invalid content (`FormatError`) is not representable in
this abstraction and is not modelled. -/
def luma_model_load (st : EngineState) (path : String) :
    EngineStatus × Option Nat × EngineState :=
  match st.files.find? (fun p => p.1 == path) with
  | none => (EngineStatus.ioError, none, st)
  | some pm =>
    (EngineStatus.success, some st.nextHandle,
     { st with
        models := (st.nextHandle, pm.2) :: st.models,
        nextHandle := st.nextHandle + 1 })

/-- Modelled from the spec: `predict` behind `luma_model_predict`
(spec section 4.4), which is not in the source.  It fails with
`InvalidHandle` if either handle is unknown, with `ShapeMismatch` if
the input tensor's shape differs from the model's expected input
topology, and otherwise registers the computed output under a fresh
handle.  The spec leaves the concrete arithmetic abstract (the topology
descriptor is unspecified) and requires only that it be a pure,
deterministic function of the model state and the input tensor's
content, so the computation is the parameter `compute`. -/
def luma_model_predict (compute : EngineModel → EngineTensor → EngineTensor)
    (st : EngineState) (mh ih : Nat) : EngineStatus × Option Nat × EngineState :=
  match alookup mh st.models with
  | none => (EngineStatus.invalidHandle, none, st)
  | some m =>
    match alookup ih st.tensors with
    | none => (EngineStatus.invalidHandle, none, st)
    | some t =>
      if t.shape ≠ m.inputShape then (EngineStatus.shapeMismatch, none, st)
      else
        (EngineStatus.success, some st.nextHandle,
         { st with
            tensors := (st.nextHandle, compute m t) :: st.tensors,
            nextHandle := st.nextHandle + 1 })

/-! ### The Python wrapper classes (luma.py lines 74-213) -/

/-- The `Tensor.shape` property (luma.py lines 132-137): its body is
`return (1, 1) if _lib is None else (1, 1)`, a placeholder reporting
(1, 1) whether or not the native library loaded. -/
def tensorShapeProperty (libLoaded : Bool) : List Int :=
  if !libLoaded then [1, 1] else [1, 1]

/-- The `Tensor.size` property (luma.py lines 139-142):
`np.prod(self.shape)`. -/
def tensorSizeProperty (libLoaded : Bool) : Int :=
  product (tensorShapeProperty libLoaded)

/-- A mock-mode `Tensor` (luma.py lines 81-84): with the library absent,
`__init__` stores `np.array(data if data is not None else [],
dtype=np.float32)` and registers no handle.  `data` holds the flat
float32 values and `npShape` the numpy array's shape (a flat list of
length n gives shape (n,); the default gives shape (0,)). -/
structure PyTensorMock where
  data : List F32
  npShape : List Int
  deriving DecidableEq, Repr

/-- Mock-mode `Tensor.__init__` (luma.py lines 81-84), `none` standing
for Python's `data=None` default. -/
def mockTensorInit (data : Option (List F32)) : PyTensorMock :=
  match data with
  | some d => PyTensorMock.mk d [Int.ofNat d.length]
  | none => PyTensorMock.mk [] [0]

/-- `Model.predict` in mock mode (luma.py lines 193-195): it returns
`Tensor(np.zeros((1, 10), dtype=np.float32))` — a fresh mock tensor of
numpy shape (1, 10) whose ten entries are all zero — regardless of the
input tensor. -/
def mockPredict (_input : PyTensorMock) : PyTensorMock :=
  PyTensorMock.mk (List.replicate 10 0) [1, 10]

/-- A constructed Python `Model` object: in mock mode it carries only
its `id` string and no handle; with the library loaded it carries the
engine handle. -/
inductive PyModelObj where
  | mockModel (id : String)
  | nativeModel (handle : Nat)
  deriving DecidableEq, Repr

/-- An exception escaping `Model.__init__`: Python's `ValueError` with
its message, or a `LumaError` raised by `_check_status` after a
non-Success engine status (the message channel itself is the subject of
`check_status`; here the status is carried). -/
inductive PyRaised where
  | valueError (msg : String)
  | lumaError (status : EngineStatus)
  deriving DecidableEq, Repr

/-- Shallow embedding of `Model.__init__` (luma.py lines 147-175).
In mock mode (`_lib is None`) it sets `self.id = id or "mock_model"`
— Python's `or` replaces both `None` and the empty string — and returns
with no handle and no engine call.  With the library loaded: a given
`path` loads, else a given `id` creates, else it raises
`ValueError("Either id or path must be provided")`; a non-Success
engine status raises `LumaError` via `_check_status`.  The optional
arguments are `Option`s for Python's `None` defaults. -/
def modelInit (libLoaded : Bool) (st : EngineState) (id path : Option String) :
    Except PyRaised (PyModelObj × EngineState) :=
  if !libLoaded then
    Except.ok
      (PyModelObj.mockModel
        (match id with
         | some s => if s = "" then "mock_model" else s
         | none => "mock_model"), st)
  else
    match path with
    | some p =>
      match luma_model_load st p with
      | (EngineStatus.success, some h, st') => Except.ok (PyModelObj.nativeModel h, st')
      | (s, _, _) => Except.error (PyRaised.lumaError s)
    | none =>
      match id with
      | some s =>
        match luma_model_create st s with
        | (EngineStatus.success, some h, st') => Except.ok (PyModelObj.nativeModel h, st')
        | (s2, _, _) => Except.error (PyRaised.lumaError s2)
      | none => Except.error (PyRaised.valueError "Either id or path must be provided")

/-! ### Concrete states for witnesses -/

/-- The empty engine state. -/
def st0 : EngineState := EngineState.mk [] [] [] 0

/-- A small well-formed engine state: one (2, 2)-tensor under handle 0
and one model expecting (2, 2) inputs under handle 1. -/
def stE : EngineState :=
  EngineState.mk [(0, EngineTensor.mk [1, 2, 3, 4] [2, 2])]
    [(1, EngineModel.mk "m1" [] [2, 2])] [] 2

/-! ### Helper lemmas on association lists -/

theorem alookup_none_of_lt {α : Type} (n : Nat) (l : List (Nat × α))
    (hall : ∀ p ∈ l, p.1 < n) : alookup n l = none := by
  induction l with
  | nil => rfl
  | cons p rest ih =>
    have hp : p.1 ≠ n := Nat.ne_of_lt (hall p (List.mem_cons_self p rest))
    simp only [alookup, if_neg hp]
    exact ih fun q hq => hall q (List.mem_cons_of_mem p hq)

theorem alookup_lt_of_some {α : Type} {n k : Nat} {v : α} {l : List (Nat × α)}
    (hall : ∀ p ∈ l, p.1 < n) (h : alookup k l = some v) : k < n := by
  induction l with
  | nil => simp [alookup] at h
  | cons p rest ih =>
    by_cases hk : p.1 = k
    · subst hk; exact hall p (List.mem_cons_self p rest)
    · simp only [alookup, if_neg hk] at h
      exact ih (fun q hq => hall q (List.mem_cons_of_mem p hq)) h

theorem alookup_cons_ne {α : Type} {k h : Nat} (v : α) (l : List (Nat × α))
    (hne : k ≠ h) : alookup h ((k, v) :: l) = alookup h l := by
  simp [alookup, hne]

/-- Inversion of a successful `predict`: both handles were live, the
shapes agreed, the fresh handle was returned, and the post-state is the
old one with the computed output prepended to the Tensor Store. -/
theorem predict_success_inv (compute : EngineModel → EngineTensor → EngineTensor)
    (st : EngineState) (mh ih oh : Nat) (st' : EngineState)
    (e : luma_model_predict compute st mh ih = (EngineStatus.success, some oh, st')) :
    ∃ m t, alookup mh st.models = some m ∧ alookup ih st.tensors = some t ∧
      t.shape = m.inputShape ∧ oh = st.nextHandle ∧
      st' = { st with
                tensors := (st.nextHandle, compute m t) :: st.tensors,
                nextHandle := st.nextHandle + 1 } := by
  cases hm : alookup mh st.models with
  | none => simp [luma_model_predict, hm] at e
  | some m =>
    cases ht : alookup ih st.tensors with
    | none => simp [luma_model_predict, hm, ht] at e
    | some t =>
      simp only [luma_model_predict, hm, ht] at e
      by_cases hsh : t.shape = m.inputShape
      · rw [if_neg (fun hc => hc hsh)] at e
        simp only [Prod.mk.injEq, Option.some.injEq, true_and] at e
        exact ⟨m, t, rfl, rfl, hsh, e.1.symm, e.2.symm⟩
      · rw [if_pos hsh] at e
        simp at e

/-! ### Claims -/

/-- C1: the engine round-trip holds — `tensor_create([1,2,3,4], shape=[2,2])`
yields a handle on which `read` returns `[1,2,3,4]` and the store's `shape`
returns `[2,2]` — but the binding's `Tensor.shape` property is a placeholder
returning (1, 1) in both its branches, so it reports (1, 1), not the creation
shape [2, 2]: the code contradicts the claim (and its own docstring). -/
theorem c1_shape_placeholder_bug :
    (luma_tensor_create st0 [1, 2, 3, 4] [2, 2]).1 = EngineStatus.success ∧
    (luma_tensor_create st0 [1, 2, 3, 4] [2, 2]).2.1 = some 0 ∧
    luma_tensor_read (luma_tensor_create st0 [1, 2, 3, 4] [2, 2]).2.2 0
      = (EngineStatus.success, some [1, 2, 3, 4]) ∧
    luma_tensor_shape (luma_tensor_create st0 [1, 2, 3, 4] [2, 2]).2.2 0
      = (EngineStatus.success, some [2, 2]) ∧
    tensorShapeProperty true = [1, 1] ∧
    tensorShapeProperty false = [1, 1] ∧
    ([1, 1] : List Int) ≠ [2, 2] := by
  decide

/-- C2: whenever `len(data) ≠ product(shape)` or some shape dimension is
negative, tensor creation fails with `InvalidArgument`, returns no handle,
and leaves the engine state (in particular the set of live tensors)
unchanged. -/
theorem tensor_create_invalid (st : EngineState) (data : List F32) (shape : List Int)
    (h : Int.ofNat data.length ≠ product shape ∨ ∃ d ∈ shape, d < 0) :
    luma_tensor_create st data shape = (EngineStatus.invalidArgument, none, st) := by
  simp only [luma_tensor_create, if_pos h]

/-- C2 witness: data of length 3 against shape [2, 2]. -/
theorem tensor_create_invalid_witness :
    luma_tensor_create st0 [1, 2, 3] [2, 2] = (EngineStatus.invalidArgument, none, st0) :=
  tensor_create_invalid st0 [1, 2, 3] [2, 2] (by decide)

/-- C4: the claimed invariant `len(data) == product(shape)` fails on the
code: `Tensor.size` is the product of the placeholder shape (1, 1) and so
equals 1 for every tensor, while a mock-mode tensor built from
`[1, 2, 3, 4]` stores 4 values (and one built with no data stores 0). -/
theorem c4_size_invariant_bug :
    (mockTensorInit (some [1, 2, 3, 4])).data.length = 4 ∧
    (mockTensorInit none).data.length = 0 ∧
    tensorSizeProperty false = 1 ∧
    tensorSizeProperty true = 1 ∧
    (4 : Int) ≠ 1 ∧ (0 : Int) ≠ 1 := by
  decide

/-- C5: `_check_status` returns normally exactly when the status is 0
(Success), and then does so for every error-channel value without
consulting it; on a non-zero status it raises `LumaError` carrying the
`get_last_error` message when that is a non-empty string, and the
fallback `Unknown error (code: <status>)` when the channel is NULL or
empty. -/
theorem check_status_spec (status : Int) (lastError : Option String) :
    (check_status status lastError = Except.ok () ↔ status = 0) ∧
    (status ≠ 0 → ∀ msg, msg ≠ "" →
       check_status status (some msg) = Except.error msg) ∧
    (status ≠ 0 →
       check_status status none = Except.error (unknownErrorMessage status)) ∧
    (status ≠ 0 →
       check_status status (some "") = Except.error (unknownErrorMessage status)) ∧
    (status = 0 → check_status status lastError = Except.ok ()) := by
  by_cases h0 : status = 0
  · subst h0
    simp [check_status, LUMA_STATUS_SUCCESS]
  · refine ⟨?_, ?_, ?_, ?_, fun h => absurd h h0⟩
    · simp [check_status, LUMA_STATUS_SUCCESS, h0]
    · intro _ msg hmsg
      simp [check_status, LUMA_STATUS_SUCCESS, h0, hmsg]
    · intro _
      simp [check_status, LUMA_STATUS_SUCCESS, h0]
    · intro _
      simp [check_status, LUMA_STATUS_SUCCESS, h0]

/-- C5 witness: status 2 with an empty error channel, and the instance's
other conjuncts at status 2. -/
theorem check_status_spec_witness :
    (check_status 2 none = Except.ok () ↔ (2 : Int) = 0) ∧
    ((2 : Int) ≠ 0 → ∀ msg, msg ≠ "" →
       check_status 2 (some msg) = Except.error msg) ∧
    ((2 : Int) ≠ 0 →
       check_status 2 none = Except.error (unknownErrorMessage 2)) ∧
    ((2 : Int) ≠ 0 →
       check_status 2 (some "") = Except.error (unknownErrorMessage 2)) ∧
    ((2 : Int) = 0 → check_status 2 none = Except.ok ()) :=
  check_status_spec 2 none

/-- C6 counterexample: the claim names `InvalidHandle` and `ShapeMismatch`
(among others) as members of the binding's status enumeration, but the
binding's enumeration contains no such names. -/
theorem c6_missing_codes :
    "InvalidHandle" ∉ lumaStatusCodes.map Prod.fst ∧
    "ShapeMismatch" ∉ lumaStatusCodes.map Prod.fst := by
  decide

/-- C6 amended: `Success == 0`, and the binding's fixed enumeration
consists of exactly the five names Success, InvalidArgument, Runtime,
NotImplemented and Memory with pairwise-distinct values of which only
Success's is 0; the other taxonomy names (InvalidHandle, NotInitialized,
AlreadyExists, Busy, IOError, FormatError, ShapeMismatch,
UnsupportedFormat) have no codes in the binding. -/
theorem luma_status_enum :
    LUMA_STATUS_SUCCESS = 0 ∧
    (lumaStatusCodes.map Prod.snd).Nodup ∧
    (lumaStatusCodes.filter (fun p => p.2 == 0)).map Prod.fst = ["Success"] ∧
    lumaStatusCodes.map Prod.fst
      = ["Success", "InvalidArgument", "Runtime", "NotImplemented", "Memory"] ∧
    lumaStatusCodes.map Prod.snd = [0, 1, 2, 3, 4] ∧
    "NotInitialized" ∉ lumaStatusCodes.map Prod.fst ∧
    "AlreadyExists" ∉ lumaStatusCodes.map Prod.fst ∧
    "Busy" ∉ lumaStatusCodes.map Prod.fst ∧
    "IOError" ∉ lumaStatusCodes.map Prod.fst ∧
    "FormatError" ∉ lumaStatusCodes.map Prod.fst ∧
    "UnsupportedFormat" ∉ lumaStatusCodes.map Prod.fst := by
  decide

/-- C10: with the library loaded, `Model()` with neither id nor path
raises `ValueError("Either id or path must be provided")`; in mock mode
the same call succeeds with id `"mock_model"`, and an empty-string id is
likewise silently replaced by `"mock_model"`. -/
theorem model_init_mock_vs_native (st : EngineState) :
    modelInit true st none none
      = Except.error (PyRaised.valueError "Either id or path must be provided") ∧
    modelInit false st none none
      = Except.ok (PyModelObj.mockModel "mock_model", st) ∧
    modelInit false st (some "") none
      = Except.ok (PyModelObj.mockModel "mock_model", st) := by
  refine ⟨rfl, rfl, ?_⟩
  simp [modelInit]

/-- A successful run of the spec-modelled `predict` on `stE` with the
identity computation: the input tensor is copied to fresh handle 2. -/
def stE' : EngineState :=
  EngineState.mk
    [(2, EngineTensor.mk [1, 2, 3, 4] [2, 2]), (0, EngineTensor.mk [1, 2, 3, 4] [2, 2])]
    [(1, EngineModel.mk "m1" [] [2, 2])] [] 3

/-- C3: `predict` fails with `InvalidHandle` when either handle is
unknown and with `ShapeMismatch` when the input's shape is incompatible
with the model's expected input topology; it reports Success exactly
when both handles are live and the shapes agree, and then the returned
handle is a fresh one not previously in the Tensor Store. -/
theorem predict_status_spec (compute : EngineModel → EngineTensor → EngineTensor)
    (st : EngineState) (mh ih : Nat) (hwf : st.WF) :
    ((alookup mh st.models = none ∨ alookup ih st.tensors = none) →
       luma_model_predict compute st mh ih = (EngineStatus.invalidHandle, none, st)) ∧
    (∀ m t, alookup mh st.models = some m → alookup ih st.tensors = some t →
       t.shape ≠ m.inputShape →
       luma_model_predict compute st mh ih = (EngineStatus.shapeMismatch, none, st)) ∧
    ((luma_model_predict compute st mh ih).1 = EngineStatus.success ↔
       ∃ m t, alookup mh st.models = some m ∧ alookup ih st.tensors = some t ∧
         t.shape = m.inputShape) ∧
    ((luma_model_predict compute st mh ih).1 = EngineStatus.success →
       (luma_model_predict compute st mh ih).2.1 = some st.nextHandle ∧
       alookup st.nextHandle st.tensors = none) := by
  refine ⟨?_, ?_, ⟨?_, ?_⟩, ?_⟩
  · rintro (h | h)
    · simp [luma_model_predict, h]
    · cases hm : alookup mh st.models with
      | none => simp [luma_model_predict, hm]
      | some m => simp [luma_model_predict, hm, h]
  · intro m t hm ht hne
    simp only [luma_model_predict, hm, ht, if_pos hne]
  · intro hs
    cases hm : alookup mh st.models with
    | none => simp [luma_model_predict, hm] at hs
    | some m =>
      cases ht : alookup ih st.tensors with
      | none => simp [luma_model_predict, hm, ht] at hs
      | some t =>
        by_cases hsh : t.shape = m.inputShape
        · exact ⟨m, t, rfl, rfl, hsh⟩
        · simp [luma_model_predict, hm, ht, if_pos hsh] at hs
  · rintro ⟨m, t, hm, ht, hsh⟩
    simp [luma_model_predict, hm, ht, hsh]
  · intro hs
    cases hm : alookup mh st.models with
    | none => simp [luma_model_predict, hm] at hs
    | some m =>
      cases ht : alookup ih st.tensors with
      | none => simp [luma_model_predict, hm, ht] at hs
      | some t =>
        by_cases hsh : t.shape = m.inputShape
        · refine ⟨?_, alookup_none_of_lt st.nextHandle st.tensors hwf.1⟩
          simp [luma_model_predict, hm, ht, hsh]
        · simp [luma_model_predict, hm, ht, if_pos hsh] at hs

/-- C3 witness: on `stE`, model handle 1 accepts tensor handle 0. -/
theorem predict_status_spec_witness :
    (luma_model_predict (fun _ t => t) stE 1 0).1 = EngineStatus.success :=
  ((predict_status_spec (fun _ t => t) stE 1 0 (by decide)).2.2.1).mpr
    ⟨EngineModel.mk "m1" [] [2, 2], EngineTensor.mk [1, 2, 3, 4] [2, 2],
     by decide, by decide, rfl⟩

/-- C7: prediction is deterministic — the output tensor registered by a
successful `predict` is a function of the model and the input tensor's
content alone, so two calls that see the same model and the same input
content produce bit-identical output tensors (in particular, running the
same state twice does); and in mock mode `predict` returns a zero-filled
float32 tensor of numpy shape (1, 10) regardless of the input. -/
theorem predict_deterministic (compute : EngineModel → EngineTensor → EngineTensor)
    (st1 st2 : EngineState) (mh1 mh2 ih1 ih2 oh1 oh2 : Nat) (st1' st2' : EngineState)
    (hm : alookup mh1 st1.models = alookup mh2 st2.models)
    (ht : alookup ih1 st1.tensors = alookup ih2 st2.tensors)
    (e1 : luma_model_predict compute st1 mh1 ih1 = (EngineStatus.success, some oh1, st1'))
    (e2 : luma_model_predict compute st2 mh2 ih2 = (EngineStatus.success, some oh2, st2')) :
    alookup oh1 st1'.tensors = alookup oh2 st2'.tensors ∧
    (∀ input, mockPredict input = PyTensorMock.mk (List.replicate 10 0) [1, 10]) := by
  refine ⟨?_, fun input => rfl⟩
  obtain ⟨m1, t1, hm1, ht1, hsh1, hoh1, hst1⟩ :=
    predict_success_inv compute st1 mh1 ih1 oh1 st1' e1
  obtain ⟨m2, t2, hm2, ht2, hsh2, hoh2, hst2⟩ :=
    predict_success_inv compute st2 mh2 ih2 oh2 st2' e2
  have hm12 : m1 = m2 := by
    rw [hm1, hm2] at hm; exact Option.some.inj hm
  have ht12 : t1 = t2 := by
    rw [ht1, ht2] at ht; exact Option.some.inj ht
  subst hst1 hst2 hoh1 hoh2 hm12 ht12
  simp [alookup]

/-- C7 witness: the same call on `stE` twice, plus the mock guarantee at
a concrete input. -/
theorem predict_deterministic_witness :
    alookup 2 stE'.tensors = alookup 2 stE'.tensors ∧
    (∀ input, mockPredict input = PyTensorMock.mk (List.replicate 10 0) [1, 10]) :=
  predict_deterministic (fun _ t => t) stE stE 1 1 0 0 2 2 stE' stE'
    rfl rfl (by decide) (by decide)

/-- C8: a successful `predict` is frame-preserving: the output goes to a
fresh handle distinct from the input's, the input tensor's store entry
is unchanged, the Model Registry (hence the model's identifier, handle
and parameters) and the file map are untouched, and every tensor entry
other than the new output's is preserved. -/
theorem predict_frame (compute : EngineModel → EngineTensor → EngineTensor)
    (st : EngineState) (mh ih oh h' : Nat) (st' : EngineState)
    (hwf : st.WF)
    (e : luma_model_predict compute st mh ih = (EngineStatus.success, some oh, st')) :
    alookup oh st.tensors = none ∧
    oh ≠ ih ∧
    st'.models = st.models ∧
    st'.files = st.files ∧
    alookup ih st'.tensors = alookup ih st.tensors ∧
    (h' ≠ oh → alookup h' st'.tensors = alookup h' st.tensors) := by
  obtain ⟨m, t, hm, ht, hsh, hoh, hst⟩ := predict_success_inv compute st mh ih oh st' e
  subst hoh hst
  have hihlt : ih < st.nextHandle := alookup_lt_of_some hwf.1 ht
  refine ⟨alookup_none_of_lt st.nextHandle st.tensors hwf.1,
    Nat.ne_of_gt hihlt, rfl, rfl, ?_, ?_⟩
  · exact alookup_cons_ne _ _ (Nat.ne_of_gt hihlt)
  · intro hne
    exact alookup_cons_ne _ _ hne.symm

/-- C8 witness: the successful run on `stE` (output handle 2, input
handle 0, spectator handle 5). -/
theorem predict_frame_witness :
    alookup 2 stE.tensors = none ∧
    (2 : Nat) ≠ 0 ∧
    stE'.models = stE.models ∧
    stE'.files = stE.files ∧
    alookup 0 stE'.tensors = alookup 0 stE.tensors ∧
    ((5 : Nat) ≠ 2 → alookup 5 stE'.tensors = alookup 5 stE.tensors) :=
  predict_frame (fun _ t => t) stE 1 0 2 5 stE' (by decide) (by decide)

/-- C9 counterexample: in mock mode, constructing a `Model` with the
empty-string id succeeds — `id or "mock_model"` silently substitutes the
default identifier — instead of failing with `InvalidArgument`. -/
theorem c9_mock_empty_id :
    modelInit false st0 (some "") none
      = Except.ok (PyModelObj.mockModel "mock_model", st0) := by
  simp [modelInit]

/-- C9 amended: with the native library loaded, constructing a model
with an empty id fails with `InvalidArgument` (the engine's
`model_create` rejects it and `Model.__init__` raises), and an
already-registered id fails with `AlreadyExists`; in mock mode, however,
an empty id is silently replaced by `"mock_model"` and construction
succeeds. -/
theorem model_create_validation (st : EngineState) (id : String) :
    (modelInit true st (some "") none
       = Except.error (PyRaised.lumaError EngineStatus.invalidArgument)) ∧
    (luma_model_create st "" = (EngineStatus.invalidArgument, none, st)) ∧
    (id ≠ "" → (∃ p ∈ st.models, p.2.id = id) →
       modelInit true st (some id) none
         = Except.error (PyRaised.lumaError EngineStatus.alreadyExists) ∧
       luma_model_create st id = (EngineStatus.alreadyExists, none, st)) := by
  refine ⟨?_, ?_, ?_⟩
  · simp [modelInit, luma_model_create]
  · simp [luma_model_create]
  · intro hid hex
    have hany : st.models.any (fun p => p.2.id == id) = true := by
      rw [List.any_eq_true]
      obtain ⟨p, hp, he⟩ := hex
      exact ⟨p, hp, by simpa using he⟩
    have hcreate : luma_model_create st id = (EngineStatus.alreadyExists, none, st) := by
      simp only [luma_model_create, if_neg hid, if_pos hany]
    refine ⟨?_, hcreate⟩
    simp [modelInit, hcreate]

/-- C9 witness: on `stE`, whose registry holds a model with id `"m1"`,
creating `"m1"` again fails with `AlreadyExists`. -/
theorem model_create_validation_witness :
    modelInit true stE (some "m1") none
      = Except.error (PyRaised.lumaError EngineStatus.alreadyExists) ∧
    luma_model_create stE "m1" = (EngineStatus.alreadyExists, none, stE) :=
  (model_create_validation stE "m1").2.2 (by decide)
    ⟨(1, EngineModel.mk "m1" [] [2, 2]), by decide, rfl⟩

end Luma
